import Mathlib

/- Verification of the indicator-computation and scoring engine of
   get_one_stock_financial_data in src/main.py (A-stock MCP server).

   The engine is embedded shallowly: pandas float arithmetic is modelled over
   the rationals, the square root used by the annualized volatility over the
   reals, per-indicator try/except isolation and the locals()-based
   availability checks as Option values.  Sections of the source are cited by
   line number next to each definition. -/

set_option maxHeartbeats 1000000

/- ============================ list helpers ============================ -/

/-- Last element of a list, 0 on the empty list (used only under non-emptiness
guards, mirroring pandas .iloc entries on non-empty frames). -/
def lastD : List ℚ → ℚ
  | [] => 0
  | [x] => x
  | _ :: y :: t => lastD (y :: t)

/-- Maximum of a list of closes, 0 on the empty list (pandas Series.max). -/
def lmax : List ℚ → ℚ
  | [] => 0
  | [x] => x
  | x :: y :: t => max x (lmax (y :: t))

/-- Minimum of a list of closes, 0 on the empty list (pandas Series.min). -/
def lmin : List ℚ → ℚ
  | [] => 0
  | [x] => x
  | x :: y :: t => min x (lmin (y :: t))

/- ===================== stage quantile (lines 316-328) ===================== -/

/-- Stage high/low quantile of the latest close within the window
(src/main.py line 323):
quantile = (latest - min) / (max - min) if max > min else 0. -/
def price_quantile (close_prices : List ℚ) : ℚ :=
  if lmin close_prices < lmax close_prices then
    (lastD close_prices - lmin close_prices) /
      (lmax close_prices - lmin close_prices)
  else 0

/- ================== growth metrics (lines 400-456) ================== -/

/-- One row of the history frame: a close and the percent-change column
(涨跌幅), which may be missing (NaN, dropped by .dropna()). -/
structure Row where
  close : ℚ
  pct_change : Option ℚ
deriving DecidableEq

/-- returns = annual_hist_data_df[<pct-change column>].dropna() / 100
(src/main.py line 423). -/
def returnsOf (rows : List Row) : List ℚ :=
  (rows.filterMap Row.pct_change).map (fun x => x / 100)

/-- pandas Series.mean: sum over length. -/
def qmean (l : List ℚ) : ℚ := l.sum / l.length

/-- pandas Series.std with the default ddof = 1: sum of squared deviations
from the mean divided by (n - 1), before the square root. -/
def sampleVar (l : List ℚ) : ℚ :=
  ((l.map (fun x => (x - qmean l) ^ 2)).sum) / ((l.length : ℚ) - 1)

/-- volatility = returns.std() * 252 ** 0.5 (src/main.py line 424). -/
noncomputable def annualizedVolatility (rows : List Row) : ℝ :=
  Real.sqrt ((sampleVar (returnsOf rows) : ℝ)) * Real.sqrt 252

/-- Population variance: divisor n.  Used only by the spec-side definition
below, for comparison against the source's computation. -/
def popVar (l : List ℚ) : ℚ :=
  ((l.map (fun x => (x - qmean l) ^ 2)).sum) / (l.length : ℚ)

/-- Follows the words of the spec (section 4.1): population standard deviation
of the fractional daily returns, scaled by sqrt 252.  Clearly distinct from
annualizedVolatility, which embeds the source's pandas std (ddof = 1). -/
noncomputable def spec_annualized_volatility (rows : List Row) : ℝ :=
  Real.sqrt ((popVar (returnsOf rows) : ℝ)) * Real.sqrt 252

/-- The volatility variable is assigned only under the guard
len(annual_hist_data_df) > 20 (src/main.py line 422); otherwise it is absent
from locals(). -/
noncomputable def volatilityOpt (rows : List Row) : Option ℝ :=
  if 20 < rows.length then some (annualizedVolatility rows) else none

/-- sharpe = (returns.mean() * 252 - 0.03) / volatility if volatility > 0
else 0, assigned under the same len > 20 guard together with the
locals() checks for returns and volatility (src/main.py lines 439-442). -/
noncomputable def sharpeOpt (rows : List Row) : Option ℝ :=
  if 20 < rows.length then
    some (if 0 < annualizedVolatility rows then
            ((qmean (returnsOf rows) : ℝ) * 252 - 3 / 100) /
              annualizedVolatility rows
          else 0)
  else none

/- ============ volatility classification (lines 427-436) ============ -/

def vol_low : String := "低波动性，价格相对稳定"

def vol_moderate : String := "中等波动性，符合行业平均水平"

def vol_elevated : String := "较高波动性，价格波动较大"

def vol_high : String := "高波动性，价格剧烈波动，风险较高"

/-- vol_analysis threshold chain (src/main.py lines 428-435), applied to the
volatility value exactly as the source computed it. -/
noncomputable def vol_analysis (v : ℝ) : String :=
  if v < 20 then vol_low
  else if 20 ≤ v ∧ v < 30 then vol_moderate
  else if 30 ≤ v ∧ v < 40 then vol_elevated
  else vol_high

/- ============ PE / PB classification (lines 360-395) ============ -/

def pe_loss : String := "负值，可能表明公司当前处于亏损状态"

def pe_low : String := "较低，可能被低估或存在风险因素"

def pe_fair : String := "处于合理区间，符合行业平均水平"

def pe_high : String := "较高，投资者对公司未来增长预期较强"

def pe_extreme : String := "极高，可能存在泡沫或特殊增长预期"

/-- pe_analysis chain (src/main.py lines 366-376). -/
def pe_analysis (pe : ℚ) : String :=
  if pe < 0 then pe_loss
  else if pe < 15 then pe_low
  else if 15 ≤ pe ∧ pe < 30 then pe_fair
  else if 30 ≤ pe ∧ pe < 50 then pe_high
  else pe_extreme

def pb_below_book : String := "低于1，可能被低估或资产回报率较低"

def pb_fair : String := "处于合理区间，符合一般企业估值水平"

def pb_rich : String := "较高，表明市场对公司资产质量评价较高"

/-- pb_analysis chain (src/main.py lines 386-392). -/
def pb_analysis (pb : ℚ) : String :=
  if pb < 1 then pb_below_book
  else if 1 ≤ pb ∧ pb < 3 then pb_fair
  else pb_rich

/- =============== technical section (lines 505-563) =============== -/

/-- One exponential-smoothing step sequence: ewm(span, adjust=False) after
the seed, i.e. e(t) = (1 - a) * e(t-1) + a * x(t). -/
def ewmAux (a : ℚ) (e : ℚ) : List ℚ → List ℚ
  | [] => []
  | x :: xs => ((1 - a) * e + a * x) :: ewmAux a ((1 - a) * e + a * x) xs

/-- pandas Series.ewm(span=s, adjust=False).mean(): smoothing factor
2 / (span + 1), seeded from the first value. -/
def ewm (span : ℕ) : List ℚ → List ℚ
  | [] => []
  | x :: xs => x :: ewmAux ((2 : ℚ) / ((span : ℚ) + 1)) x xs

/-- rolling(window=w).mean() evaluated at the last row: the arithmetic mean of
the trailing w closes (well-defined whenever w ≤ length, which the call sites
guarantee via the len >= 20 guard). -/
def lastMA (w : ℕ) (closes : List ℚ) : ℚ :=
  ((closes.drop (closes.length - w)).sum) / (w : ℚ)

def ma_bull : String := "多头排列，短期走势强劲"

def ma_bear : String := "空头排列，短期走势疲软"

def ma_mixed : String := "均线交叉，趋势不明确"

def macd_strong_buy : String := "MACD金叉且在零轴上方，强烈买入信号"

def macd_cautious_buy : String := "MACD金叉但仍在零轴下方，买入信号但需谨慎"

def macd_weak_buy : String := "MACD金叉但在零轴下方，弱买入信号"

def macd_strong_sell : String := "MACD死叉且在零轴下方，强烈卖出信号"

def macd_cautious_sell : String := "MACD死叉但仍在零轴上方，卖出信号但需谨慎"

def macd_weak_sell : String := "MACD死叉但在零轴上方，弱卖出信号"

/-- Output of the technical-indicator section: the MA-alignment label and the
latest DIF/DEA/MACD histogram values with the derived signal label. -/
structure TechOut where
  ma_trend : String
  dif : ℚ
  dea : ℚ
  macd : ℚ
  macd_signal : String
deriving DecidableEq

/-- The technical-indicator section (src/main.py lines 505-563).  The only
gate in the source is len(annual_hist_data_df) >= 20 (line 507); inside it the
moving averages, the MA-alignment label and the full MACD pipeline
(EMA12/EMA26 -> DIF, DEA = DIF.ewm(span=9), histogram = 2*(DIF - DEA)) are
computed and reported unconditionally. -/
def techSection (closes : List ℚ) : Option TechOut :=
  if 20 ≤ closes.length then
    let ma5 := lastMA 5 closes
    let ma10 := lastMA 10 closes
    let ma20 := lastMA 20 closes
    let trend :=
      if ma5 > ma10 ∧ ma10 > ma20 then ma_bull
      else if ma5 < ma10 ∧ ma10 < ma20 then ma_bear
      else ma_mixed
    let difL := List.zipWith (fun a b => a - b) (ewm 12 closes) (ewm 26 closes)
    let deaL := ewm 9 difL
    let macdL := List.zipWith (fun a b => 2 * (a - b)) difL deaL
    let dif := lastD difL
    let dea := lastD deaL
    let macdV := lastD macdL
    let signal :=
      if dif > dea then
        if 0 < dif ∧ 0 < dea then macd_strong_buy
        else if 0 < dif ∧ dea < 0 then macd_cautious_buy
        else macd_weak_buy
      else
        if dif < 0 ∧ dea < 0 then macd_strong_sell
        else if dif < 0 ∧ 0 < dea then macd_cautious_sell
        else macd_weak_sell
    some ⟨trend, dif, dea, macdV, signal⟩
  else none

/- ============== composite scoring (lines 600-735) ============== -/

/-- Python substring membership test (pat in s), over character lists. -/
def leadMatch : List Char → List Char → Bool
  | [], _ => true
  | _ :: _, [] => false
  | a :: as, b :: bs => (a == b) && leadMatch as bs

def hasSubList (pat : List Char) : List Char → Bool
  | [] => leadMatch pat []
  | b :: bs => leadMatch pat (b :: bs) || hasSubList pat bs

def strContains (s pat : String) : Bool := hasSubList pat.toList s.toList

/-- PE sub-score chain (src/main.py lines 611-623).  Note the source gate is
pe <= 0, inclusive of zero. -/
def pe_score (pe : ℚ) : ℕ :=
  if pe ≤ 0 then 0
  else if pe < 10 then 90
  else if 10 ≤ pe ∧ pe < 20 then 80
  else if 20 ≤ pe ∧ pe < 30 then 60
  else if 30 ≤ pe ∧ pe < 50 then 40
  else 20

/-- PB sub-score chain (src/main.py lines 634-642): bucket bounds 1, 2, 4. -/
def pb_score (pb : ℚ) : ℕ :=
  if pb < 1 then 85
  else if 1 ≤ pb ∧ pb < 2 then 80
  else if 2 ≤ pb ∧ pb < 4 then 60
  else 40

/-- MA-alignment sub-score (src/main.py lines 652-657): string equality on the
trend label. -/
def tech_score (t : String) : ℕ :=
  if t = ma_bull then 80 else if t = ma_bear then 40 else 60

def str_strong_buy : String := "强烈买入"

def str_buy : String := "买入"

def str_weak_buy : String := "弱买入"

def str_strong_sell : String := "强烈卖出"

def str_sell : String := "卖出"

/-- MACD sub-score (src/main.py lines 665-676): ordered substring checks over
the signal string, exactly as the source writes them. -/
def macd_score (s : String) : ℕ :=
  if strContains s str_strong_buy then 85
  else if strContains s str_buy then 75
  else if strContains s str_weak_buy then 65
  else if strContains s str_strong_sell then 25
  else if strContains s str_sell then 35
  else 45

/-- Volatility sub-score (src/main.py lines 684-691), applied to the raw
volatility value. -/
noncomputable def vol_score (v : ℝ) : ℕ :=
  if v < 20 then 80
  else if 20 ≤ v ∧ v < 30 then 70
  else if 30 ≤ v ∧ v < 40 then 50
  else 30

/-- Sharpe sub-score (src/main.py lines 699-708). -/
noncomputable def sharpe_score (s : ℝ) : ℕ :=
  if s < 0 then 30
  else if 0 ≤ s ∧ s < 1/2 then 50
  else if 1/2 ≤ s ∧ s < 1 then 65
  else if 1 ≤ s ∧ s < 2 then 80
  else 90

/-- Inputs to the scoring stage.  pe/pb mirror stock_info_dict entries: outer
Option = key present, inner Option = float() parse succeeded.  The remaining
fields mirror the locals()-availability of ma_trend, macd_signal, volatility
and the sharpe value. -/
structure ScoreInputs where
  pe : Option (Option ℚ)
  pb : Option (Option ℚ)
  ma_trend : Option String
  macd_signal : Option String
  volatility : Option ℝ
  sharpe : Option ℝ

/-- PE scoring block (lines 609-629): key present and parse ok scores;
a parse failure falls into except: pass, producing nothing. -/
def peSub (inp : ScoreInputs) : Option ℕ :=
  match inp.pe with
  | some (some q) => some (pe_score q)
  | _ => none

/-- PB scoring block (lines 632-648). -/
def pbSub (inp : ScoreInputs) : Option ℕ :=
  match inp.pb with
  | some (some q) => some (pb_score q)
  | _ => none

/-- Technical-trend scoring block (lines 651-661), gated on
ma_trend in locals(). -/
def techSub (inp : ScoreInputs) : Option ℕ :=
  match inp.ma_trend with
  | some t => some (tech_score t)
  | none => none

/-- MACD scoring block (lines 664-680), gated on macd_signal in locals(). -/
def macdSub (inp : ScoreInputs) : Option ℕ :=
  match inp.macd_signal with
  | some s => some (macd_score s)
  | none => none

/-- Volatility scoring block (lines 683-695), gated on
volatility in locals(). -/
noncomputable def volSub (inp : ScoreInputs) : Option ℕ :=
  match inp.volatility with
  | some v => some (vol_score v)
  | none => none

/-- Sharpe scoring block (lines 698-712), gated on the sharpe value being in
locals(). -/
noncomputable def sharpeSub (inp : ScoreInputs) : Option ℕ :=
  match inp.sharpe with
  | some s => some (sharpe_score s)
  | none => none

/-- The produced sub-scores, in source order. -/
noncomputable def score_list (inp : ScoreInputs) : List ℕ :=
  [peSub inp, pbSub inp, techSub inp, macdSub inp,
   volSub inp, sharpeSub inp].filterMap id

/-- score_total accumulator (each block does score_total += ...). -/
noncomputable def score_total (inp : ScoreInputs) : ℕ := (score_list inp).sum

/-- score_count accumulator (each block does score_count += 1). -/
noncomputable def score_count (inp : ScoreInputs) : ℕ := (score_list inp).length

/-- total_score = score_total / score_count, emitted only if score_count > 0
(src/main.py lines 719-721). -/
noncomputable def total_score (inp : ScoreInputs) : Option ℚ :=
  if 0 < score_count inp then
    some ((score_total inp : ℚ) / (score_count inp : ℚ))
  else none

def advice_hq : String := "优质投资标的，财务指标表现优秀"

def advice_good : String := "良好投资标的，财务指标表现良好"

def advice_avg : String := "一般投资标的，财务指标表现中等"

def advice_caution : String := "谨慎投资，财务指标存在一定问题"

def advice_notrec : String := "不建议投资，财务指标表现较差"

/-- Recommendation tier chain (src/main.py lines 724-733). -/
def investment_advice (c : ℚ) : String :=
  if 80 ≤ c then advice_hq
  else if 70 ≤ c ∧ c < 80 then advice_good
  else if 60 ≤ c ∧ c < 70 then advice_avg
  else if 50 ≤ c ∧ c < 60 then advice_caution
  else advice_notrec

/-- The advice line, emitted only inside the score_count > 0 block. -/
noncomputable def advice (inp : ScoreInputs) : Option String :=
  (total_score inp).map investment_advice

/-- PE classification availability (section 6.2): omitted when the key is
absent or float() fails (lines 362-379). -/
def peClass (inp : ScoreInputs) : Option String :=
  match inp.pe with
  | some (some q) => some (pe_analysis q)
  | _ => none

/-- PB classification availability (lines 382-395). -/
def pbClass (inp : ScoreInputs) : Option String :=
  match inp.pb with
  | some (some q) => some (pb_analysis q)
  | _ => none

/-- Everything the financial-score stage emits about the six indicators. -/
structure FinReport where
  peClass : Option String
  pbClass : Option String
  peSub : Option ℕ
  pbSub : Option ℕ
  techSub : Option ℕ
  macdSub : Option ℕ
  volSub : Option ℕ
  sharpeSub : Option ℕ
  total_score : Option ℚ
  advice : Option String

/-- The full scoring-stage output for a given input state; total by
construction, matching the per-indicator try/except isolation (no block
raises to the caller). -/
noncomputable def report (inp : ScoreInputs) : FinReport :=
  ⟨peClass inp, pbClass inp, peSub inp, pbSub inp, techSub inp, macdSub inp,
   volSub inp, sharpeSub inp, total_score inp, advice inp⟩

/-- Dropping the PE entry from the inputs (key absent). -/
def clearPe (inp : ScoreInputs) : ScoreInputs := { inp with pe := none }

/-- Dropping the PB entry from the inputs (key absent). -/
def clearPb (inp : ScoreInputs) : ScoreInputs := { inp with pb := none }

/- ===================== concrete evaluation inputs ===================== -/

/-- A 20-session history, every day's percent change present (+1%). -/
def rows20 : List Row := List.replicate 20 ⟨10, some 1⟩

/-- A 21-session history whose percent changes are 21, 0, ..., 0. -/
def rowsC3 : List Row := ⟨10, some 21⟩ :: List.replicate 20 ⟨10, some 0⟩

/-- A 21-session history whose percent changes are 7, -7, 0, ..., 0: its
annualized volatility is sqrt(0.12348), about 35 percent. -/
def rowsC4 : List Row := ⟨10, some 7⟩ :: ⟨10, some (-7)⟩ ::
  List.replicate 19 ⟨10, some 0⟩

/-- A flat 25-session close series. -/
def closes25 : List ℚ := List.replicate 25 10

/-- Scoring input with only a PE of 8 available. -/
def inpW1 : ScoreInputs := ⟨some (some 8), none, none, none, none, none⟩

/-- Scoring input with a non-numeric PE entry and a parsed PB of 1.5. -/
def inpW8 : ScoreInputs := ⟨some none, some (some (3/2)), none, none, none, none⟩

/-- Close window used to witness the quantile properties. -/
def closesW : List ℚ := [1, 3, 2]

/- ========================= helper lemmas ========================= -/

theorem lastD_mem : ∀ (l : List ℚ), l ≠ [] → lastD l ∈ l
  | [], h => absurd rfl h
  | [x], _ => by simp [lastD]
  | x :: y :: t, _ => by
      have ih := lastD_mem (y :: t) (by simp)
      simpa [lastD] using List.mem_cons_of_mem x ih

theorem le_lmax : ∀ (l : List ℚ) (x : ℚ), x ∈ l → x ≤ lmax l
  | [], x, hx => by simp at hx
  | [a], x, hx => by
      simp at hx
      simp [lmax, hx]
  | a :: b :: t, x, hx => by
      rcases List.mem_cons.mp hx with h | h
      · simp [lmax, h, le_max_iff]
      · have ih := le_lmax (b :: t) x h
        simp only [lmax, le_max_iff]
        exact Or.inr ih

theorem lmin_le : ∀ (l : List ℚ) (x : ℚ), x ∈ l → lmin l ≤ x
  | [], x, hx => by simp at hx
  | [a], x, hx => by
      simp at hx
      simp [lmin, hx]
  | a :: b :: t, x, hx => by
      rcases List.mem_cons.mp hx with h | h
      · simp [lmin, h, min_le_iff]
      · have ih := lmin_le (b :: t) x h
        simp only [lmin, min_le_iff]
        exact Or.inr ih

/- ============================== C9 ============================== -/

/-- C9: on every non-empty close window the stage quantile
(latest - min) / (max - min) is 0 when max = min (the division is guarded,
never a division error), and lies in [0,1] whenever max > min. -/
theorem c9_price_quantile (closes : List ℚ) (h : closes ≠ []) :
    (lmax closes = lmin closes → price_quantile closes = 0) ∧
    (lmin closes < lmax closes →
      0 ≤ price_quantile closes ∧ price_quantile closes ≤ 1) := by
  constructor
  · intro he
    simp [price_quantile, he]
  · intro hlt
    have hmem := lastD_mem closes h
    have h1 : lmin closes ≤ lastD closes := lmin_le closes _ hmem
    have h2 : lastD closes ≤ lmax closes := le_lmax closes _ hmem
    have hpos : 0 < lmax closes - lmin closes := sub_pos.mpr hlt
    rw [price_quantile, if_pos hlt]
    constructor
    · exact div_nonneg (by linarith) hpos.le
    · rw [div_le_one hpos]
      linarith

/-- Witness for C9 on the concrete window [1, 3, 2]. -/
theorem c9_witness : 0 ≤ price_quantile closesW ∧ price_quantile closesW ≤ 1 :=
  (c9_price_quantile closesW (by decide)).2 (by decide)

/- ============================== C5 ============================== -/

/-- C5 counterexample: the source maps PE = 0 to sub-score 0 (the gate is
pe <= 0, line 612), not to the 90 bucket, even though 0 < 0 is false. -/
theorem c5_counterexample :
    pe_score 0 = 0 ∧ pe_score 0 ≠ 90 ∧ ¬ ((0 : ℚ) < 0) := by decide

/-- C5 amended: the PE sub-score is 0 exactly when PE ≤ 0 (zero included),
and the 90 bucket is the open-below interval (0, 10). -/
theorem c5_pe_zero_bucket (pe : ℚ) :
    (pe_score pe = 0 ↔ pe ≤ 0) ∧ (0 < pe ∧ pe < 10 → pe_score pe = 90) := by
  refine ⟨⟨fun h => ?_, fun h => by rw [pe_score, if_pos h]⟩, fun h => ?_⟩
  · by_contra hp
    push_neg at hp
    rw [pe_score, if_neg (by linarith)] at h
    split_ifs at h
  · rw [pe_score, if_neg (by linarith), if_pos h.2]

/-- Witness for C5 amended at PE = 5. -/
theorem c5_witness : pe_score 5 = 90 :=
  (c5_pe_zero_bucket 5).2 (by norm_num)

/- ============================== C6 ============================== -/

theorem pb_score_below (x : ℚ) (h : x < 1) : pb_score x = 85 := by
  rw [pb_score, if_pos h]

theorem pb_score_one_two (x : ℚ) (h1 : 1 ≤ x) (h2 : x < 2) :
    pb_score x = 80 := by
  rw [pb_score, if_neg (by linarith), if_pos ⟨h1, h2⟩]

theorem pb_score_two_four (x : ℚ) (h1 : 2 ≤ x) (h2 : x < 4) :
    pb_score x = 60 := by
  rw [pb_score, if_neg (by linarith), if_neg (by rintro ⟨-, h⟩; linarith),
      if_pos ⟨h1, h2⟩]

theorem pb_score_four_up (x : ℚ) (h1 : 4 ≤ x) : pb_score x = 40 := by
  rw [pb_score, if_neg (by linarith), if_neg (by rintro ⟨-, h⟩; linarith),
      if_neg (by rintro ⟨-, h⟩; linarith)]

/-- C6 counterexample: 1.5 and 2.5 both lie in the PB classification bucket
[1, 3) of section 4.2, yet the source gives them different sub-scores
(80 and 60): the sub-score table is not derived from those buckets. -/
theorem c6_counterexample :
    (1 ≤ (3/2 : ℚ) ∧ (3/2 : ℚ) < 3) ∧ (1 ≤ (5/2 : ℚ) ∧ (5/2 : ℚ) < 3) ∧
    pb_score (3/2) ≠ pb_score (5/2) := by
  norm_num [pb_score]

/-- C6 amended: the PB sub-score buckets of the source are <1 -> 85,
[1,2) -> 80, [2,4) -> 60 and [4, inf) -> 40; any two PB values inside the
same one of these buckets receive equal sub-scores. -/
theorem c6_pb_buckets (x y : ℚ)
    (h : (x < 1 ∧ y < 1) ∨ (1 ≤ x ∧ x < 2 ∧ 1 ≤ y ∧ y < 2) ∨
         (2 ≤ x ∧ x < 4 ∧ 2 ≤ y ∧ y < 4) ∨ (4 ≤ x ∧ 4 ≤ y)) :
    pb_score x = pb_score y := by
  rcases h with ⟨h1, h2⟩ | ⟨h1, h2, h3, h4⟩ | ⟨h1, h2, h3, h4⟩ | ⟨h1, h2⟩
  · rw [pb_score_below x h1, pb_score_below y h2]
  · rw [pb_score_one_two x h1 h2, pb_score_one_two y h3 h4]
  · rw [pb_score_two_four x h1 h2, pb_score_two_four y h3 h4]
  · rw [pb_score_four_up x h1, pb_score_four_up y h2]

/-- Witness for C6 amended: 1.1 and 1.9 share the [1,2) bucket. -/
theorem c6_witness : pb_score (11/10) = pb_score (19/10) :=
  c6_pb_buckets (11/10) (19/10) (Or.inr (Or.inl (by norm_num)))

/- ============================== C7 ============================== -/

theorem ewmAux_const (a x : ℚ) : ∀ n : ℕ,
    ewmAux a x (List.replicate n x) = List.replicate n x
  | 0 => rfl
  | n + 1 => by
      have hx : (1 - a) * x + a * x = x := by ring
      rw [List.replicate_succ, ewmAux, hx, ewmAux_const a x n]

theorem ewm_const (s : ℕ) (x : ℚ) (n : ℕ) :
    ewm s (List.replicate (n + 1) x) = List.replicate (n + 1) x := by
  rw [List.replicate_succ, ewm, ewmAux_const]

theorem zipWith_sub_self : ∀ l : List ℚ,
    List.zipWith (fun a b => a - b) l l = List.replicate l.length 0
  | [] => rfl
  | x :: t => by
      simp [List.zipWith, List.replicate_succ, zipWith_sub_self t]

theorem zipWith_replicate_self (f : ℚ → ℚ → ℚ) (x y : ℚ) : ∀ n : ℕ,
    List.zipWith f (List.replicate n x) (List.replicate n y) =
      List.replicate n (f x y)
  | 0 => rfl
  | n + 1 => by
      simp [List.replicate_succ, List.zipWith, zipWith_replicate_self f x y n]

theorem lastD_replicate (x : ℚ) : ∀ n : ℕ,
    lastD (List.replicate (n + 1) x) = x
  | 0 => rfl
  | n + 1 => by
      rw [List.replicate_succ, List.replicate_succ, lastD]
      rw [← List.replicate_succ, lastD_replicate x n]

/-- C7 counterexample: a 25-session series (fewer than 26 points) has its
MACD computed and reported as a normal value - on a flat series the histogram
is reported as exactly 0, with no degradation flag anywhere in the output. -/
theorem c7_counterexample :
    closes25.length = 25 ∧ (techSection closes25).isSome = true ∧
    (techSection closes25).map TechOut.macd = some 0 := by
  have hlen : closes25.length = 25 := by simp [closes25]
  have h12 : ewm 12 closes25 = closes25 := ewm_const 12 10 24
  have h26 : ewm 26 closes25 = closes25 := ewm_const 26 10 24
  have hdif : List.zipWith (fun a b => a - b) (ewm 12 closes25) (ewm 26 closes25) =
      List.replicate 25 (0 : ℚ) := by
    rw [h12, h26, zipWith_sub_self, hlen]
  have hdea : ewm 9 (List.replicate 25 (0 : ℚ)) = List.replicate 25 (0 : ℚ) :=
    ewm_const 9 0 24
  have hmacd : List.zipWith (fun a b => 2 * (a - b))
      (List.replicate 25 (0 : ℚ)) (List.replicate 25 (0 : ℚ)) =
      List.replicate 25 (0 : ℚ) := by
    rw [zipWith_replicate_self]
    norm_num
  have hgate : 20 ≤ closes25.length := by rw [hlen]; norm_num
  refine ⟨hlen, ?_, ?_⟩
  · rw [techSection, if_pos hgate]
    rfl
  · simp only [techSection, if_pos hgate, hdif, hdea, hmacd, lastD_replicate]
    rfl

/-- C7 amended: the technical section's only gate is len >= 20 (line 507);
the MACD values and signal are reported exactly when the series has at least
20 points, with no 26-point meaningfulness flag. -/
theorem c7_macd_gate (closes : List ℚ) :
    (techSection closes).isSome ↔ 20 ≤ closes.length := by
  rw [techSection]
  split_ifs with h <;> simp [h]

/- ============================== C2 ============================== -/

/-- C2: at a history of exactly 20 sessions with every daily return present,
the source computes neither the annualized volatility nor the Sharpe value
(the gate at line 422 is len > 20), although its own comment and the spec say
at least 20 trading days suffice. -/
theorem c2_exact_twenty :
    rows20.length = 20 ∧ (returnsOf rows20).length = 20 ∧
    volatilityOpt rows20 = none ∧ sharpeOpt rows20 = none := by
  refine ⟨by decide, by decide, ?_, ?_⟩ <;>
    simp [volatilityOpt, sharpeOpt, rows20]

/- ============================== C10 ============================== -/

/-- C10: in the composite, the volatility sub-score is present exactly when
the Sharpe sub-score is present: both availabilities reduce to the same
len > 20 gate of the growth section. -/
theorem c10_vol_sharpe_sync (pe pb : Option (Option ℚ))
    (mat ms : Option String) (rows : List Row) :
    (volSub ⟨pe, pb, mat, ms, volatilityOpt rows, sharpeOpt rows⟩).isSome ↔
    (sharpeSub ⟨pe, pb, mat, ms, volatilityOpt rows, sharpeOpt rows⟩).isSome := by
  by_cases h : 20 < rows.length <;>
    simp [volSub, sharpeSub, volatilityOpt, sharpeOpt, h]

/- ============================== C1 ============================== -/

theorem pe_score_le_hundred (q : ℚ) : pe_score q ≤ 100 := by
  unfold pe_score
  split_ifs <;> norm_num

theorem pb_score_le_hundred (q : ℚ) : pb_score q ≤ 100 := by
  unfold pb_score
  split_ifs <;> norm_num

theorem tech_score_le_hundred (t : String) : tech_score t ≤ 100 := by
  unfold tech_score
  split_ifs <;> norm_num

theorem macd_score_le_hundred (s : String) : macd_score s ≤ 100 := by
  unfold macd_score
  split_ifs <;> norm_num

theorem vol_score_le_hundred (v : ℝ) : vol_score v ≤ 100 := by
  unfold vol_score
  split_ifs <;> norm_num

theorem sharpe_score_le_hundred (s : ℝ) : sharpe_score s ≤ 100 := by
  unfold sharpe_score
  split_ifs <;> norm_num

theorem peSub_le (inp : ScoreInputs) (x : ℕ) (h : peSub inp = some x) :
    x ≤ 100 := by
  rcases hpe : inp.pe with _ | (_ | q) <;> simp [peSub, hpe] at h
  exact h ▸ pe_score_le_hundred q

theorem pbSub_le (inp : ScoreInputs) (x : ℕ) (h : pbSub inp = some x) :
    x ≤ 100 := by
  rcases hpb : inp.pb with _ | (_ | q) <;> simp [pbSub, hpb] at h
  exact h ▸ pb_score_le_hundred q

theorem techSub_le (inp : ScoreInputs) (x : ℕ) (h : techSub inp = some x) :
    x ≤ 100 := by
  rcases hma : inp.ma_trend with _ | t <;> simp [techSub, hma] at h
  exact h ▸ tech_score_le_hundred t

theorem macdSub_le (inp : ScoreInputs) (x : ℕ) (h : macdSub inp = some x) :
    x ≤ 100 := by
  rcases hms : inp.macd_signal with _ | s <;> simp [macdSub, hms] at h
  exact h ▸ macd_score_le_hundred s

theorem volSub_le (inp : ScoreInputs) (x : ℕ) (h : volSub inp = some x) :
    x ≤ 100 := by
  rcases hv : inp.volatility with _ | v <;> simp [volSub, hv] at h
  exact h ▸ vol_score_le_hundred v

theorem sharpeSub_le (inp : ScoreInputs) (x : ℕ) (h : sharpeSub inp = some x) :
    x ≤ 100 := by
  rcases hs : inp.sharpe with _ | s <;> simp [sharpeSub, hs] at h
  exact h ▸ sharpe_score_le_hundred s

theorem score_mem_le (inp : ScoreInputs) : ∀ x ∈ score_list inp, x ≤ 100 := by
  intro x hx
  simp only [score_list, List.mem_filterMap, List.mem_cons, List.not_mem_nil,
    or_false, id_eq] at hx
  obtain ⟨a, ha, rfl⟩ := hx
  rcases ha with h | h | h | h | h | h
  · exact peSub_le inp x h.symm
  · exact pbSub_le inp x h.symm
  · exact techSub_le inp x h.symm
  · exact macdSub_le inp x h.symm
  · exact volSub_le inp x h.symm
  · exact sharpeSub_le inp x h.symm

theorem score_total_le (inp : ScoreInputs) :
    (score_total inp : ℚ) ≤ 100 * (score_count inp : ℚ) := by
  have h := List.sum_le_card_nsmul (score_list inp) 100 (score_mem_le inp)
  rw [smul_eq_mul] at h
  rw [score_total, score_count]
  calc ((score_list inp).sum : ℚ)
      ≤ (((score_list inp).length * 100 : ℕ) : ℚ) := by exact_mod_cast h
  _ = 100 * ((score_list inp).length : ℚ) := by push_cast; ring

/-- C1: whenever at least one sub-score is produced the composite equals the
arithmetic mean of the produced sub-scores, lies in [0, 100] and maps through
the tier chain (>= 80 high quality, [70,80) good, [60,70) average,
[50,60) caution, < 50 not recommended); with zero sub-scores neither a
composite nor an advice line is emitted (source lines 719-735). -/
theorem c1_composite_score (inp : ScoreInputs) :
    (score_count inp = 0 → total_score inp = none ∧ advice inp = none) ∧
    (0 < score_count inp →
      total_score inp = some ((score_total inp : ℚ) / (score_count inp : ℚ))) ∧
    (∀ c : ℚ, total_score inp = some c →
      0 ≤ c ∧ c ≤ 100 ∧
      (80 ≤ c → advice inp = some advice_hq) ∧
      (70 ≤ c ∧ c < 80 → advice inp = some advice_good) ∧
      (60 ≤ c ∧ c < 70 → advice inp = some advice_avg) ∧
      (50 ≤ c ∧ c < 60 → advice inp = some advice_caution) ∧
      (c < 50 → advice inp = some advice_notrec)) := by
  refine ⟨fun h0 => ?_, fun hpos => ?_, fun c hc => ?_⟩
  · have ht : total_score inp = none := by
      rw [total_score, if_neg (by omega)]
    exact ⟨ht, by rw [advice, ht]; rfl⟩
  · rw [total_score, if_pos hpos]
  · have hpos : 0 < score_count inp := by
      by_contra hn
      rw [total_score, if_neg hn] at hc
      exact Option.noConfusion hc
    have hceq : c = (score_total inp : ℚ) / (score_count inp : ℚ) := by
      rw [total_score, if_pos hpos] at hc
      exact (Option.some_inj.mp hc).symm
    have hcount : (0 : ℚ) < (score_count inp : ℚ) := by exact_mod_cast hpos
    have h0 : 0 ≤ c := by
      rw [hceq]
      exact div_nonneg (Nat.cast_nonneg _) (Nat.cast_nonneg _)
    have h100 : c ≤ 100 := by
      rw [hceq, div_le_iff₀ hcount]
      calc (score_total inp : ℚ) ≤ 100 * (score_count inp : ℚ) :=
            score_total_le inp
      _ = 100 * (score_count inp : ℚ) := rfl
    have hadv : advice inp = some (investment_advice c) := by
      rw [advice, hc]
      rfl
    refine ⟨h0, h100, fun h80 => ?_, fun h78 => ?_, fun h67 => ?_,
      fun h56 => ?_, fun h50 => ?_⟩
    · rw [hadv, investment_advice, if_pos h80]
    · rw [hadv, investment_advice, if_neg (by linarith [h78.2]), if_pos h78]
    · rw [hadv, investment_advice, if_neg (by linarith [h67.2]),
        if_neg (by rintro ⟨hx, -⟩; linarith [h67.2]), if_pos h67]
    · rw [hadv, investment_advice, if_neg (by linarith [h56.2]),
        if_neg (by rintro ⟨hx, -⟩; linarith [h56.2]),
        if_neg (by rintro ⟨hx, -⟩; linarith [h56.2]), if_pos h56]
    · rw [hadv, investment_advice, if_neg (by linarith),
        if_neg (by rintro ⟨hx, -⟩; linarith),
        if_neg (by rintro ⟨hx, -⟩; linarith),
        if_neg (by rintro ⟨hx, -⟩; linarith)]

/-- Witness for C1 on an input whose only available indicator is PE = 8:
one sub-score of 90, composite 90, tier high quality. -/
theorem c1_witness :
    total_score inpW1 = some 90 ∧ (0 : ℚ) ≤ 90 ∧ (90 : ℚ) ≤ 100 ∧
    advice inpW1 = some advice_hq := by
  have hpe : pe_score 8 = 90 := by
    rw [pe_score, if_neg (by norm_num), if_pos (by norm_num)]
  have hl : score_list inpW1 = [90] := by
    simp [score_list, peSub, pbSub, techSub, macdSub, volSub, sharpeSub,
      inpW1, hpe]
  have h90 : total_score inpW1 = some 90 := by
    rw [total_score, if_pos (by rw [score_count, hl]; norm_num)]
    rw [score_total, score_count, hl]
    norm_num
  obtain ⟨h0, h100, hhq, -⟩ := (c1_composite_score inpW1).2.2 90 h90
  exact ⟨h90, h0, h100, hhq (by norm_num)⟩

/- ============================== C8 ============================== -/

/-- C8: per-indicator failure isolation in the scoring stage.  A PE (resp.
PB) entry that is present but fails the float() parse behaves exactly like an
absent entry: its own classification and sub-score are omitted while every
other indicator's outputs and the overall report (composite and advice
included) are unchanged; the stage is a total function, so no indicator
failure raises to the caller. -/
theorem c8_isolation (inp : ScoreInputs) :
    (inp.pe = some none →
      peSub inp = none ∧ peClass inp = none ∧
      report inp = report (clearPe inp)) ∧
    (inp.pb = some none →
      pbSub inp = none ∧ pbClass inp = none ∧
      report inp = report (clearPb inp)) := by
  constructor
  · intro hpe
    have h1 : peSub inp = none := by simp [peSub, hpe]
    have h1c : peClass inp = none := by simp [peClass, hpe]
    have h2 : peSub (clearPe inp) = none := by simp [peSub, clearPe]
    have h2c : peClass (clearPe inp) = none := by simp [peClass, clearPe]
    have hl : score_list inp = score_list (clearPe inp) := by
      simp only [score_list]
      rw [h1, h2]
      rfl
    have hts : total_score inp = total_score (clearPe inp) := by
      simp only [total_score, score_total, score_count, hl]
    have hadv : advice inp = advice (clearPe inp) := by
      simp only [advice, hts]
    refine ⟨h1, h1c, ?_⟩
    simp only [report]
    rw [h1, h2, h1c, h2c, hts, hadv]
    rfl
  · intro hpb
    have h1 : pbSub inp = none := by simp [pbSub, hpb]
    have h1c : pbClass inp = none := by simp [pbClass, hpb]
    have h2 : pbSub (clearPb inp) = none := by simp [pbSub, clearPb]
    have h2c : pbClass (clearPb inp) = none := by simp [pbClass, clearPb]
    have hl : score_list inp = score_list (clearPb inp) := by
      simp only [score_list]
      rw [h1, h2]
      rfl
    have hts : total_score inp = total_score (clearPb inp) := by
      simp only [total_score, score_total, score_count, hl]
    have hadv : advice inp = advice (clearPb inp) := by
      simp only [advice, hts]
    refine ⟨h1, h1c, ?_⟩
    simp only [report]
    rw [h1, h2, h1c, h2c, hts, hadv]
    rfl

/-- Witness for C8 on an input with a non-numeric PE and a parsed PB. -/
theorem c8_witness :
    peSub inpW8 = none ∧ peClass inpW8 = none ∧
    report inpW8 = report (clearPe inpW8) :=
  (c8_isolation inpW8).1 rfl

/- ============================== C3 ============================== -/

theorem sq_sum_nonneg (l : List ℚ) (m : ℚ) :
    0 ≤ (l.map (fun x => (x - m) ^ 2)).sum :=
  List.sum_nonneg (fun x hx => by
    obtain ⟨y, -, rfl⟩ := List.mem_map.mp hx
    positivity)

theorem sampleVar_nonneg (l : List ℚ) : 0 ≤ sampleVar l := by
  rcases l with _ | ⟨x, t⟩
  · rw [sampleVar]
    norm_num
  · rw [sampleVar]
    apply div_nonneg (sq_sum_nonneg _ _)
    have h1 : 1 ≤ (x :: t).length := by simp
    have h2 : (1 : ℚ) ≤ ((x :: t).length : ℚ) := by exact_mod_cast h1
    linarith

theorem filterMap_pct_replicate (n : ℕ) (c : ℚ) (p : ℚ) :
    (List.replicate n (Row.mk c (some p))).filterMap Row.pct_change =
      List.replicate n p := by
  induction n with
  | zero => rfl
  | succ n ih => simp [List.replicate_succ, List.filterMap_cons, ih]

theorem returnsOf_rowsC3 :
    returnsOf rowsC3 = (21 / 100 : ℚ) :: List.replicate 20 (0 : ℚ) := by
  simp [returnsOf, rowsC3, filterMap_pct_replicate, List.filterMap_cons,
    List.map_replicate]

theorem qmean_C3 :
    qmean ((21 / 100 : ℚ) :: List.replicate 20 (0 : ℚ)) = 1 / 100 := by
  rw [qmean]
  simp [List.sum_replicate]
  norm_num

theorem sampleVar_C3 :
    sampleVar ((21 / 100 : ℚ) :: List.replicate 20 (0 : ℚ)) = 21 / 10000 := by
  rw [sampleVar, qmean_C3]
  simp [List.map_replicate, List.sum_replicate, nsmul_eq_mul]
  norm_num

theorem popVar_C3 :
    popVar ((21 / 100 : ℚ) :: List.replicate 20 (0 : ℚ)) = 1 / 500 := by
  rw [popVar, qmean_C3]
  simp [List.map_replicate, List.sum_replicate, nsmul_eq_mul]
  norm_num

/-- C3 counterexample: on a concrete 21-session series the source volatility
(pandas std, divisor n - 1) differs from the population-standard-deviation
value the claim states: sqrt(0.0021 * 252) vs sqrt(0.002 * 252). -/
theorem c3_counterexample :
    20 < rowsC3.length ∧
    annualizedVolatility rowsC3 ≠ spec_annualized_volatility rowsC3 := by
  refine ⟨by simp [rowsC3], ?_⟩
  have h1 : annualizedVolatility rowsC3 =
      Real.sqrt ((21 : ℝ) / 10000 * 252) := by
    rw [annualizedVolatility, returnsOf_rowsC3, sampleVar_C3,
      ← Real.sqrt_mul (by norm_num)]
    norm_num
  have h2 : spec_annualized_volatility rowsC3 =
      Real.sqrt ((1 : ℝ) / 500 * 252) := by
    rw [spec_annualized_volatility, returnsOf_rowsC3, popVar_C3,
      ← Real.sqrt_mul (by norm_num)]
    norm_num
  rw [h1, h2]
  intro heq
  have h3 := (Real.sqrt_inj (by norm_num) (by norm_num)).mp heq
  norm_num at h3

/-- C3 amended: the annualized volatility equals the SAMPLE standard
deviation of the fractional daily returns - squared deviations from the mean
summed and divided by n - 1, not n - scaled by sqrt 252. -/
theorem c3_sample_std (rows : List Row) (h : 20 < rows.length) :
    volatilityOpt rows =
      some (Real.sqrt (((((returnsOf rows).map
          (fun x => (x - qmean (returnsOf rows)) ^ 2)).sum /
            (((returnsOf rows).length : ℚ) - 1)) : ℚ) * 252)) := by
  rw [volatilityOpt, if_pos h, annualizedVolatility,
    ← Real.sqrt_mul (by exact_mod_cast sampleVar_nonneg (returnsOf rows))]
  rfl

/-- Witness for C3 amended at the concrete 21-session series. -/
theorem c3_witness :
    volatilityOpt rowsC3 =
      some (Real.sqrt (((((returnsOf rowsC3).map
          (fun x => (x - qmean (returnsOf rowsC3)) ^ 2)).sum /
            (((returnsOf rowsC3).length : ℚ) - 1)) : ℚ) * 252)) :=
  c3_sample_std rowsC3 (by simp [rowsC3])

/- ============================== C4 ============================== -/

theorem returnsOf_rowsC4 :
    returnsOf rowsC4 =
      (7 / 100 : ℚ) :: (-7 / 100 : ℚ) :: List.replicate 19 (0 : ℚ) := by
  simp [returnsOf, rowsC4, filterMap_pct_replicate, List.filterMap_cons,
    List.map_replicate]

theorem qmean_C4 :
    qmean ((7 / 100 : ℚ) :: (-7 / 100 : ℚ) :: List.replicate 19 (0 : ℚ)) = 0 := by
  rw [qmean]
  simp [List.sum_replicate]
  norm_num

theorem sampleVar_C4 :
    sampleVar ((7 / 100 : ℚ) :: (-7 / 100 : ℚ) :: List.replicate 19 (0 : ℚ)) =
      49 / 100000 := by
  rw [sampleVar, qmean_C4]
  simp [List.map_replicate, List.sum_replicate, nsmul_eq_mul]
  norm_num

/-- C4: the source computes the volatility of this series as a FRACTION,
about 0.3514 (i.e. 35.14 annualized percent, in the claim's elevated bucket
[30, 40)), but classifies that raw fraction against the percent thresholds
20/30/40, so the stock is labelled low-volatility - the classification is
never applied to the percent value the claim (and the source's own
percent-formatted output) presupposes. -/
theorem c4_unit_mismatch :
    20 < rowsC4.length ∧
    30 ≤ 100 * annualizedVolatility rowsC4 ∧
    100 * annualizedVolatility rowsC4 < 40 ∧
    vol_analysis (annualizedVolatility rowsC4) = vol_low := by
  have hvol : annualizedVolatility rowsC4 = Real.sqrt ((3087 : ℝ) / 25000) := by
    rw [annualizedVolatility, returnsOf_rowsC4, sampleVar_C4,
      ← Real.sqrt_mul (by norm_num)]
    norm_num
  have h09 : (3 / 10 : ℝ) ≤ Real.sqrt ((3087 : ℝ) / 25000) :=
    (Real.le_sqrt (by norm_num) (by norm_num)).mpr (by norm_num)
  have h16 : Real.sqrt ((3087 : ℝ) / 25000) < 2 / 5 := by
    rw [Real.sqrt_lt' (by norm_num)]
    norm_num
  have h20 : annualizedVolatility rowsC4 < 20 := by
    rw [hvol]
    linarith
  refine ⟨by simp [rowsC4], ?_, ?_, ?_⟩
  · rw [hvol]
    linarith
  · rw [hvol]
    linarith
  · unfold vol_analysis
    rw [if_pos h20]
